import Mathlib

/-!
Shallow embedding of the `openai` Rust client library and proofs of the
specification claims about it.

Source files embedded:
- src/openai/src/core/response_wrapper.rs : error taxonomy and API error shapes
- src/openai/src/client.rs : transport primitive, response resolver, the two
  backends (OpenAI, AzureOpenAI) and the ClientEnum dispatch wrapper
- src/openai/src/api/chat.rs : Role, ChatCompletionMessage, CreateChatRequest,
  the derive_builder-generated builders and their serde serialization
- src/openai/src/api/extraction_prompt.rs : PromptTemplate and generate_prompt

Conventions: Rust String is Lean String; Vec is List; HashMap is an
association list with first-match lookup; serde_json values are the JsonVal
inductive; a Rust panic is modelled as Option.none; async functions are
modelled as pure functions from the awaited exchange outcome.
-/

/-- JSON values, the model of serde_json::Value and of serialized payloads.
Numbers carry a Float (the widest numeric carrier used by the source: f32
fields widen losslessly). Object member order is the serialization order. -/
inductive JsonVal where
  | null : JsonVal
  | bool (b : Bool) : JsonVal
  | num (x : Float) : JsonVal
  | str (s : String) : JsonVal
  | arr (xs : List JsonVal) : JsonVal
  | obj (fields : List (String × JsonVal)) : JsonVal

/-- Keys of a JSON object, in serialization order ([] on non-objects). -/
def JsonVal.objKeys : JsonVal → List String
  | .obj fields => fields.map Prod.fst
  | _ => []

/-- Lookup of a key in a JSON object (none on non-objects). -/
def JsonVal.objLookup (j : JsonVal) (key : String) : Option JsonVal :=
  match j with
  | .obj fields => fields.lookup key
  | _ => none

/-- ApiErrorDetail from response_wrapper.rs: message, type, and loosely
typed optional param/code fields. -/
structure ApiErrorDetail where
  message : String
  type : String
  param : Option JsonVal
  code : Option JsonVal

/-- ApiErrorResponse from response_wrapper.rs: the error envelope. -/
structure ApiErrorResponse where
  error : ApiErrorDetail

/-- OpenAIError from response_wrapper.rs. Reqwest and JSONDeserialize carry
the underlying error rendered as a string (reqwest::Error and
serde_json::Error are external opaque types). -/
inductive OpenAIError where
  | Reqwest (e : String) : OpenAIError
  | ApiError (r : ApiErrorResponse) : OpenAIError
  | JSONDeserialize (e : String) : OpenAIError
  | StreamError (s : String) : OpenAIError
  | InvalidArgument (s : String) : OpenAIError

/-- Role from chat.rs: the conversation-message role enumeration.
User is the Default variant. -/
inductive Role where
  | System : Role
  | User : Role
  | Assistant : Role
deriving DecidableEq

/-- Serde serialization of Role under rename_all = "lowercase": each unit
variant serializes to its lowercased name. -/
def Role.serialize : Role → String
  | .System => "system"
  | .User => "user"
  | .Assistant => "assistant"

/-- Serde deserialization of Role under rename_all = "lowercase": exactly
the three lowercased variant names are accepted; anything else is an
unknown-variant error. -/
def Role.deserialize (s : String) : Except String Role :=
  if s = "system" then .ok .System
  else if s = "user" then .ok .User
  else if s = "assistant" then .ok .Assistant
  else .error ("unknown variant: " ++ s)

/-- Stop type used by CreateChatRequest.stop. Modelled from the spec: the
definition lives in src/openai/src/core/types.rs, which is not part of the
provided sources; the spec describes the field only as "stop sequences", so
it is modelled as one stop string or a list of them. No claim depends on its
internal shape. -/
inductive Stop where
  | one (s : String) : Stop
  | many (ss : List String) : Stop

/-- Serialization of Stop (modelled from the spec, see Stop). -/
def Stop.serialize : Stop → JsonVal
  | .one s => .str s
  | .many ss => .arr (ss.map JsonVal.str)

/-- ChatCompletionMessage from chat.rs: role, content, optional name.
Defaults mirror the derived Default impl (Role.User, empty string, None). -/
structure ChatCompletionMessage where
  role : Role := .User
  content : String := ""
  name : Option String := none

/-- CreateChatRequest from chat.rs. Field order is declaration order; the
defaults mirror the derived Default impl. u8 and u32 fields are carried as
Nat (no arithmetic is performed on them), f32 fields as Float. -/
structure CreateChatRequest where
  model : String := ""
  messages : List ChatCompletionMessage := []
  temperature : Option Float := none
  top_p : Option Float := none
  n : Option Nat := none
  stream : Option Bool := none
  stop : Option Stop := none
  max_tokens : Option Nat := none
  presence_penalty : Option Float := none
  frequency_penalty : Option Float := none
  logit_bias : Option (List (String × JsonVal)) := none
  user : Option String := none

/-- ChatCompletionMessageRequestBuilder from chat.rs, as generated by
derive_builder with pattern = "mutable" and struct-level default: every
field is stored as an Option, none meaning the setter was never called. -/
structure ChatCompletionMessageRequestBuilder where
  role : Option Role := none
  content : Option String := none
  name : Option (Option String) := none

/-- build() of ChatCompletionMessageRequestBuilder as generated by
derive_builder under the struct-level default attribute: every unset field
falls back to its Default value (Role.User, "", None); the error type is
OpenAIError per build_fn(error = "OpenAIError") but no error path remains. -/
def ChatCompletionMessageRequestBuilder.build
    (b : ChatCompletionMessageRequestBuilder) :
    Except OpenAIError ChatCompletionMessage :=
  .ok { role := b.role.getD .User
        content := b.content.getD ""
        name := b.name.getD none }

/-- CreateChatRequestBuilder from chat.rs, as generated by derive_builder
with pattern = "mutable" and struct-level default. -/
structure CreateChatRequestBuilder where
  model : Option String := none
  messages : Option (List ChatCompletionMessage) := none
  temperature : Option (Option Float) := none
  top_p : Option (Option Float) := none
  n : Option (Option Nat) := none
  stream : Option (Option Bool) := none
  stop : Option (Option Stop) := none
  max_tokens : Option (Option Nat) := none
  presence_penalty : Option (Option Float) := none
  frequency_penalty : Option (Option Float) := none
  logit_bias : Option (Option (List (String × JsonVal))) := none
  user : Option (Option String) := none

/-- build() of CreateChatRequestBuilder as generated by derive_builder under
the struct-level default attribute: every unset field falls back to its
Default value (empty model string, empty message vector, None for options);
the error type is OpenAIError per build_fn(error = "OpenAIError") but no
error path remains, so build always returns Ok. -/
def CreateChatRequestBuilder.build (b : CreateChatRequestBuilder) :
    Except OpenAIError CreateChatRequest :=
  .ok { model := b.model.getD ""
        messages := b.messages.getD []
        temperature := b.temperature.getD none
        top_p := b.top_p.getD none
        n := b.n.getD none
        stream := b.stream.getD none
        stop := b.stop.getD none
        max_tokens := b.max_tokens.getD none
        presence_penalty := b.presence_penalty.getD none
        frequency_penalty := b.frequency_penalty.getD none
        logit_bias := b.logit_bias.getD none
        user := b.user.getD none }

/-- C1: the claim expects build() on a builder whose messages are empty or
whose model is empty to fail with OpenAIError.InvalidArgument. The code
disagrees: because the builders carry the struct-level derive_builder
default attribute, build() on the all-defaults builder (model never set,
messages never set) returns Ok of the Default request — model is the empty
string and messages the empty vector — instead of any error. This theorem
evaluates the embedded build at that failing input. -/
theorem createChatRequestBuilder_build_defaults_ok :
    CreateChatRequestBuilder.build {} =
      .ok { model := "", messages := [] } := rfl

/-- C9: for every builder state of CreateChatRequestBuilder and of
ChatCompletionMessageRequestBuilder — including the all-defaults state —
build() returns Ok, substituting the type defaults for unset fields; it
never returns an error. -/
theorem builders_build_always_ok :
    (∀ b : CreateChatRequestBuilder, ∃ r, b.build = .ok r) ∧
    (∀ b : ChatCompletionMessageRequestBuilder, ∃ m, b.build = .ok m) ∧
    CreateChatRequestBuilder.build {} =
      .ok { model := "", messages := [], temperature := none, top_p := none,
            n := none, stream := none, stop := none, max_tokens := none,
            presence_penalty := none, frequency_penalty := none,
            logit_bias := none, user := none } ∧
    ChatCompletionMessageRequestBuilder.build {} =
      .ok { role := .User, content := "", name := none } := by
  refine ⟨fun b => ⟨_, rfl⟩, fun b => ⟨_, rfl⟩, rfl, rfl⟩

/-- Serde serialization of one optional struct field guarded by
skip_serializing_if = "Option::is_none": no member at all when unset. -/
def optMember (key : String) (o : Option α) (f : α → JsonVal) :
    List (String × JsonVal) :=
  match o with
  | none => []
  | some v => [(key, f v)]

/-- Serde serialization of ChatCompletionMessage as derived in chat.rs:
role, content and name in declaration order. The name field carries no
skip_serializing_if attribute, so an unset name is serialized as null. -/
def serializeMessage (m : ChatCompletionMessage) : JsonVal :=
  .obj [("role", .str m.role.serialize),
        ("content", .str m.content),
        ("name", match m.name with | none => JsonVal.null | some nm => .str nm)]

/-- Serde serialization of CreateChatRequest as derived in chat.rs: model
and messages always, every optional field guarded by
skip_serializing_if = "Option::is_none". -/
def serializeCreateChatRequest (r : CreateChatRequest) : JsonVal :=
  .obj ([("model", .str r.model),
         ("messages", .arr (r.messages.map serializeMessage))]
    ++ optMember "temperature" r.temperature .num
    ++ optMember "top_p" r.top_p .num
    ++ optMember "n" r.n (fun k => .num (Float.ofNat k))
    ++ optMember "stream" r.stream .bool
    ++ optMember "stop" r.stop Stop.serialize
    ++ optMember "max_tokens" r.max_tokens (fun k => .num (Float.ofNat k))
    ++ optMember "presence_penalty" r.presence_penalty .num
    ++ optMember "frequency_penalty" r.frequency_penalty .num
    ++ optMember "logit_bias" r.logit_bias (fun kvs => .obj kvs)
    ++ optMember "user" r.user .str)

/-- Name field of the first message object inside a serialized request, used
to exhibit what the wire payload holds for an unset message name. -/
def firstMessageNameField (j : JsonVal) : Option JsonVal :=
  match j.objLookup "messages" with
  | some (.arr (first :: _)) => first.objLookup "name"
  | _ => none

/-- A concrete request whose single message leaves the optional name
qualifier unset and which sets no optional tuning field. -/
def reqNoName : CreateChatRequest :=
  { model := "gpt-4", messages := [{ role := .User, content := "hi" }] }

theorem optMember_keys (key : String) (o : Option α) (f : α → JsonVal) :
    (optMember key o f).map Prod.fst = if o.isSome then [key] else [] := by
  cases o <;> rfl

/-- C4 counterexample: the claim says no unset optional field ever appears
and null is never emitted, including the message name qualifier. But the
serialization of reqNoName — whose message name is unset — carries the key
"name" bound to null inside the messages array, because
ChatCompletionMessage has no skip_serializing_if on name. -/
theorem serialized_unset_name_is_null :
    reqNoName.messages = [{ role := .User, content := "hi", name := none }] ∧
    firstMessageNameField (serializeCreateChatRequest reqNoName) =
      some JsonVal.null := ⟨rfl, rfl⟩

/-- C4 amended: every optional field of the request record itself that is
left unset is omitted entirely from the serialized JSON (its key is absent,
and no null is emitted for it), and model and messages are always present in
that order; however the optional name qualifier on each conversation message
is always serialized, as null when unset. -/
theorem request_serialization_omits_unset_fields (r : CreateChatRequest)
    (m : ChatCompletionMessage) :
    (serializeCreateChatRequest r).objKeys =
      ["model", "messages"]
        ++ (if r.temperature.isSome then ["temperature"] else [])
        ++ (if r.top_p.isSome then ["top_p"] else [])
        ++ (if r.n.isSome then ["n"] else [])
        ++ (if r.stream.isSome then ["stream"] else [])
        ++ (if r.stop.isSome then ["stop"] else [])
        ++ (if r.max_tokens.isSome then ["max_tokens"] else [])
        ++ (if r.presence_penalty.isSome then ["presence_penalty"] else [])
        ++ (if r.frequency_penalty.isSome then ["frequency_penalty"] else [])
        ++ (if r.logit_bias.isSome then ["logit_bias"] else [])
        ++ (if r.user.isSome then ["user"] else []) ∧
    serializeMessage m =
      .obj [("role", .str m.role.serialize),
            ("content", .str m.content),
            ("name", match m.name with
                     | none => JsonVal.null
                     | some nm => .str nm)] := by
  refine ⟨?_, rfl⟩
  simp [serializeCreateChatRequest, JsonVal.objKeys, optMember_keys]

/-- Field from extraction_prompt.rs: name, declared type label, description.
Named PromptField here because Mathlib already declares Field. -/
structure PromptField where
  name : String
  field_type : String
  description : String

/-- PromptTemplate from extraction_prompt.rs: ordered field descriptors plus
optional system/user preamble strings. -/
structure PromptTemplate where
  fields : List PromptField
  system_input : Option String
  user_input : Option String

/-- PromptTemplate::new from extraction_prompt.rs. -/
def PromptTemplate.new (fields : List PromptField) (system_input : Option String)
    (user_input : Option String) : PromptTemplate :=
  { fields := fields, system_input := system_input, user_input := user_input }

/-- PromptTemplate::generate_prompt from extraction_prompt.rs: push the
optional preambles, the fixed instruction line, then one line per field in
stored order; a field whose name is absent from the mapping renders with an
empty value. The HashMap argument is modelled as an association list with
first-match lookup. -/
def PromptTemplate.generate_prompt (t : PromptTemplate)
    (objects : List (String × String)) : String :=
  let prompt := ""
  let prompt := match t.system_input with
    | some s => prompt ++ "System Input: " ++ s ++ "\n"
    | none => prompt
  let prompt := match t.user_input with
    | some u => prompt ++ "User Input: " ++ u ++ "\n"
    | none => prompt
  let prompt := prompt ++ "JSON INSTRUCT with Fields:\n"
  t.fields.foldl (fun prompt field =>
    match objects.lookup field.name with
    | some value =>
        prompt ++ field.name ++ " (" ++ field.field_type ++ "): " ++ value ++ "\n"
    | none =>
        prompt ++ field.name ++ " (" ++ field.field_type ++ "): \n") prompt

/-- Line rendered for one field descriptor by generate_prompt. -/
def fieldLine (objects : List (String × String)) (field : PromptField) : String :=
  match objects.lookup field.name with
  | some value =>
      field.name ++ " (" ++ field.field_type ++ "): " ++ value ++ "\n"
  | none =>
      field.name ++ " (" ++ field.field_type ++ "): \n"

/-- Preamble emitted by generate_prompt before any field line: the same
accumulation generate_prompt performs before entering its field loop. -/
def promptHeader (t : PromptTemplate) : String :=
  let prompt := ""
  let prompt := match t.system_input with
    | some s => prompt ++ "System Input: " ++ s ++ "\n"
    | none => prompt
  let prompt := match t.user_input with
    | some u => prompt ++ "User Input: " ++ u ++ "\n"
    | none => prompt
  prompt ++ "JSON INSTRUCT with Fields:\n"

theorem string_foldl_append :
    ∀ (l : List String) (init : String),
      l.foldl (fun r s => r ++ s) init = init ++ String.join l
  | [], init => by simp [String.join]
  | x :: xs, init => by
    have hj : String.join (x :: xs) = x ++ String.join xs := by
      show List.foldl (fun r s => r ++ s) "" (x :: xs) = _
      simp only [List.foldl_cons]
      rw [string_foldl_append xs ("" ++ x)]
      simp
    simp only [List.foldl_cons]
    rw [string_foldl_append xs (init ++ x), hj, String.append_assoc]

theorem foldl_append_eq_join (g : α → String) :
    ∀ (l : List α) (init : String),
      l.foldl (fun acc x => acc ++ g x) init = init ++ String.join (l.map g) := by
  intro l init
  have : l.foldl (fun acc x => acc ++ g x) init =
      (l.map g).foldl (fun r s => r ++ s) init := by
    induction l generalizing init with
    | nil => rfl
    | cons x xs ih => simp only [List.foldl_cons, List.map_cons, ih]
  rw [this, string_foldl_append]

/-- C7: rendering is a pure deterministic function — equal templates and
equal mappings give byte-identical output; the output is the preamble
followed by one line per field descriptor, in the stored order of the field
sequence; and a field whose name is absent from the mapping renders with an
empty value placeholder (its line is still emitted) rather than being
omitted. -/
theorem generate_prompt_deterministic_ordered (t : PromptTemplate)
    (objects : List (String × String)) :
    (∀ (t2 : PromptTemplate) (objects2 : List (String × String)),
        t2 = t → objects2 = objects →
        t2.generate_prompt objects2 = t.generate_prompt objects) ∧
    t.generate_prompt objects =
      promptHeader t ++ String.join (t.fields.map (fieldLine objects)) ∧
    (∀ f : PromptField, objects.lookup f.name = none →
        fieldLine objects f = f.name ++ " (" ++ f.field_type ++ "): \n") := by
  refine ⟨fun t2 o2 ht ho => by rw [ht, ho], ?_, fun f hf => by
    simp [fieldLine, hf]⟩
  have hfun : (fun (prompt : String) (field : PromptField) =>
      match objects.lookup field.name with
      | some value =>
          prompt ++ field.name ++ " (" ++ field.field_type ++ "): " ++ value ++ "\n"
      | none =>
          prompt ++ field.name ++ " (" ++ field.field_type ++ "): \n")
      = fun (acc : String) (field : PromptField) =>
          acc ++ fieldLine objects field := by
    funext acc field
    unfold fieldLine
    cases objects.lookup field.name <;> simp [String.append_assoc]
  unfold PromptTemplate.generate_prompt
  simp only [hfun]
  rw [foldl_append_eq_join]
  rfl

/-- Witness for C7 at a concrete template, mapping, and absent field. -/
theorem generate_prompt_deterministic_ordered_witness :
    PromptTemplate.generate_prompt
        (PromptTemplate.new [⟨"a", "string", "da"⟩, ⟨"b", "int", "db"⟩]
          (some "sys") none) [("a", "va")] =
      promptHeader (PromptTemplate.new [⟨"a", "string", "da"⟩, ⟨"b", "int", "db"⟩]
          (some "sys") none) ++
        String.join (([⟨"a", "string", "da"⟩, ⟨"b", "int", "db"⟩] :
            List PromptField).map (fieldLine [("a", "va")])) ∧
    fieldLine [("a", "va")] ⟨"b", "int", "db"⟩ = "b" ++ " (" ++ "int" ++ "): \n" := by
  refine ⟨(generate_prompt_deterministic_ordered _ _).2.1, ?_⟩
  exact (generate_prompt_deterministic_ordered
    (PromptTemplate.new [⟨"a", "string", "da"⟩, ⟨"b", "int", "db"⟩]
      (some "sys") none) [("a", "va")]).2.2 ⟨"b", "int", "db"⟩ rfl

/-- C8: a message role serializes to exactly one of the literal strings
"system", "user", "assistant"; serialization round-trips through
deserialization; a string that deserializes successfully is the
serialization of the returned role; and every other string is rejected. -/
theorem role_serde_exactly_three (s : String) (r : Role) :
    (Role.serialize r = "system" ∨ Role.serialize r = "user" ∨
      Role.serialize r = "assistant") ∧
    Role.deserialize (Role.serialize r) = .ok r ∧
    (∀ r2 : Role, Role.deserialize s = .ok r2 → s = Role.serialize r2) ∧
    (s ≠ "system" → s ≠ "user" → s ≠ "assistant" →
      Role.deserialize s = .error ("unknown variant: " ++ s)) := by
  refine ⟨?_, ?_, ?_, ?_⟩
  · cases r <;> simp [Role.serialize]
  · cases r <;> rfl
  · intro r2 h
    unfold Role.deserialize at h
    split at h
    · cases h; simp_all [Role.serialize]
    · split at h
      · cases h; simp_all [Role.serialize]
      · split at h
        · cases h; simp_all [Role.serialize]
        · cases h
  · intro h1 h2 h3
    unfold Role.deserialize
    rw [if_neg h1, if_neg h2, if_neg h3]

/-- Witness for C8 at the concrete string "bot" and role Role.System. -/
theorem role_serde_exactly_three_witness :
    (Role.serialize .System = "system" ∨ Role.serialize .System = "user" ∨
      Role.serialize .System = "assistant") ∧
    Role.deserialize (Role.serialize .System) = .ok .System ∧
    Role.deserialize "bot" = .error ("unknown variant: " ++ "bot") := by
  obtain ⟨h1, h2, _, h4⟩ := role_serde_exactly_three "bot" .System
  exact ⟨h1, h2, h4 (by decide) (by decide) (by decide)⟩

/-- ORGANIZATION_HEADER from client.rs. -/
def ORGANIZATION_HEADER : String := "OpenAI-Organization"

/-- HTTP method, the subset of reqwest::Method used by client.rs. -/
inductive Method where
  | GET : Method
  | POST : Method
deriving DecidableEq

/-- Payload attached by the per-call mutation closure in ClientBase::get and
ClientBase::post: a query (get) or a JSON body (post). -/
inductive Payload (α : Type) where
  | query (q : α) : Payload α
  | json (j : α) : Payload α

/-- The pending HTTP exchange assembled by ClientBase::request: method, full
URL, merged caller headers, bearer token and the closure's payload. No
network activity is modelled; this is the reqwest RequestBuilder value. -/
structure RequestSpec (α : Type) where
  method : Method
  url : String
  headers : List (String × String)
  bearer : String
  payload : Payload α

/-- Validity of one character in an HTTP header value, as checked by
HeaderValue::from_str in the http crate: bytes from 32 up except DEL, plus
horizontal tab. -/
def validHeaderValueChar (c : Char) : Bool :=
  (32 ≤ c.toNat && c.toNat ≠ 127) || c.toNat = 9

/-- org_id.parse::<HeaderValue>() from OpenAI::headers: some on success,
none when the string holds a byte invalid in a header value (in the source
the subsequent unwrap() panics there). -/
def parseHeaderValue (s : String) : Option String :=
  if s.toList.all validHeaderValueChar then some s else none

/-- statusIsSuccess models reqwest StatusCode::is_success: the 2xx range. -/
def statusIsSuccess (status : Nat) : Bool :=
  200 ≤ status && status < 300

/-- resolve_response from client.rs. The exchange argument is the awaited
outcome of request.send(): a transport error, propagated as
OpenAIError.Reqwest by the question-mark operator, or a status code with the
raw body bytes. serde_json::from_slice for the two target schemas is
abstracted by the decoder arguments. -/
def resolve_response {T : Type} (decodeT : String → Except String T)
    (decodeErr : String → Except String ApiErrorResponse)
    (exchange : Except String (Nat × String)) : Except OpenAIError T :=
  match exchange with
  | .error e => .error (.Reqwest e)
  | .ok (status, bytes) =>
    if !statusIsSuccess status then
      match decodeErr bytes with
      | .error e => .error (.JSONDeserialize e)
      | .ok api_error => .error (.ApiError api_error)
    else
      match decodeT bytes with
      | .error e => .error (.JSONDeserialize e)
      | .ok data => .ok data

/-- ClientBase from client.rs: api key and base URL. -/
structure ClientBase where
  api_key : String
  base_url : String

/-- ClientBase::new from client.rs. -/
def ClientBase.new (api_key : String) (base_url : String) : ClientBase :=
  { api_key := api_key, base_url := base_url }

/-- ClientBase::headers from client.rs: HeaderMap::new(), the empty map. -/
def ClientBase.headers (_ : ClientBase) : List (String × String) := []

/-- ClientBase::request from client.rs: the URL is the base URL concatenated
with the route; ClientBase's own (empty) headers and bearer auth are
attached, then the mutation closure adds its payload. -/
def ClientBase.request (cb : ClientBase) (method : Method) (route : String)
    (payload : Payload α) : RequestSpec α :=
  { method := method
    url := cb.base_url ++ route
    headers := cb.headers
    bearer := cb.api_key
    payload := payload }

/-- ClientBase::get from client.rs, up to the await inside resolve_response:
the pending exchange it assembles. -/
def ClientBase.get (cb : ClientBase) (route : String) (query : α) :
    RequestSpec α :=
  cb.request .GET route (.query query)

/-- ClientBase::post from client.rs, up to the await inside
resolve_response: the pending exchange it assembles. -/
def ClientBase.post (cb : ClientBase) (route : String) (json : α) :
    RequestSpec α :=
  cb.request .POST route (.json json)

/-- OpenAI from client.rs: the direct backend. -/
structure OpenAI where
  base : ClientBase
  org_id : Option String

/-- OpenAI::new from client.rs: the base URL is the fixed well-known
address. -/
def OpenAI.new (api_key : String) (org_id : Option String) : OpenAI :=
  { base := ClientBase.new api_key "https://api.openai.com/v1"
    org_id := org_id }

/-- OpenAI::headers from client.rs: start from the base's empty map and
insert the organization header when org_id is present. The result is an
Option because org_id.parse().unwrap() panics (modelled as none) when the
organization identifier is not a valid header value. -/
def OpenAI.headers (c : OpenAI) : Option (List (String × String)) :=
  match c.org_id with
  | none => some c.base.headers
  | some org =>
    match parseHeaderValue org with
    | some v => some (c.base.headers ++ [(ORGANIZATION_HEADER, v)])
    | none => none

/-- OpenAI::api_key from client.rs. -/
def OpenAI.api_key (c : OpenAI) : String := c.base.api_key

/-- OpenAI::api_base from client.rs. -/
def OpenAI.api_base (c : OpenAI) : String := c.base.base_url

/-- OpenAI::get from client.rs: delegates to the base with the route
unchanged. -/
def OpenAI.get (c : OpenAI) (route : String) (query : α) : RequestSpec α :=
  c.base.get route query

/-- OpenAI::post from client.rs: delegates to the base with the route
unchanged. -/
def OpenAI.post (c : OpenAI) (route : String) (json : α) : RequestSpec α :=
  c.base.post route json

/-- AzureOpenAI from client.rs: the gateway-routed backend. -/
structure AzureOpenAI where
  base : ClientBase
  resource_name : String
  deployment_id : String
  api_version : String

/-- AzureOpenAI::new from client.rs: the base URL interpolates the resource
name into the templated address. -/
def AzureOpenAI.new (api_key : String) (resource_name : String)
    (deployment_id : String) (api_version : String) : AzureOpenAI :=
  { base := ClientBase.new api_key
      ("https://" ++ resource_name ++ ".openai.azure.com")
    resource_name := resource_name
    deployment_id := deployment_id
    api_version := api_version }

/-- AzureOpenAI::route_with_deployment from client.rs: the format macro
interpolates the deployment id, the caller route and the api version. -/
def AzureOpenAI.route_with_deployment (c : AzureOpenAI) (route : String) :
    String :=
  "/openai/deployments/" ++ c.deployment_id ++ "/" ++ route
    ++ "?api-version=" ++ c.api_version

/-- AzureOpenAI::headers from client.rs: the base's empty map; wrapped in
Option only to share the capability-interface result type (it never
panics). -/
def AzureOpenAI.headers (c : AzureOpenAI) : Option (List (String × String)) :=
  some c.base.headers

/-- AzureOpenAI::api_key from client.rs. -/
def AzureOpenAI.api_key (c : AzureOpenAI) : String := c.base.api_key

/-- AzureOpenAI::api_base from client.rs. -/
def AzureOpenAI.api_base (c : AzureOpenAI) : String := c.base.base_url

/-- AzureOpenAI::get from client.rs: rewrites the route with
route_with_deployment, then delegates to the base. -/
def AzureOpenAI.get (c : AzureOpenAI) (route : String) (query : α) :
    RequestSpec α :=
  c.base.get (c.route_with_deployment route) query

/-- AzureOpenAI::post from client.rs: rewrites the route with
route_with_deployment, then delegates to the base. -/
def AzureOpenAI.post (c : AzureOpenAI) (route : String) (json : α) :
    RequestSpec α :=
  c.base.post (c.route_with_deployment route) json

/-- ClientEnum from client.rs: the closed tagged union over the two backend
variants (constructor names are lowercased to avoid shadowing the backend
type names). -/
inductive ClientEnum where
  | openAI (client : OpenAI) : ClientEnum
  | azureOpenAI (client : AzureOpenAI) : ClientEnum

/-- ClientEnum::headers from client.rs: forwards to the held variant. -/
def ClientEnum.headers : ClientEnum → Option (List (String × String))
  | .openAI client => client.headers
  | .azureOpenAI client => client.headers

/-- ClientEnum::api_key from client.rs: forwards to the held variant. -/
def ClientEnum.api_key : ClientEnum → String
  | .openAI client => client.api_key
  | .azureOpenAI client => client.api_key

/-- ClientEnum::api_base from client.rs: forwards to the held variant. -/
def ClientEnum.api_base : ClientEnum → String
  | .openAI client => client.api_base
  | .azureOpenAI client => client.api_base

/-- ClientEnum::get from client.rs: forwards to the held variant. -/
def ClientEnum.get (c : ClientEnum) (route : String) (query : α) :
    RequestSpec α :=
  match c with
  | .openAI client => client.get route query
  | .azureOpenAI client => client.get route query

/-- ClientEnum::post from client.rs: forwards to the held variant. -/
def ClientEnum.post (c : ClientEnum) (route : String) (json : α) :
    RequestSpec α :=
  match c with
  | .openAI client => client.post route json
  | .azureOpenAI client => client.post route json

/-- C2: resolve_response branches on the status code alone. On a non-success
status it decodes the body as the API error schema — a decode failure is a
JSON-decode error, a decode success an API-error result — and never returns
a success value. On a success status it decodes the body as the target type,
returning the value on success and a JSON-decode error (not an API error,
not a default) on failure. -/
theorem resolve_response_status_branching {T : Type}
    (decodeT : String → Except String T)
    (decodeErr : String → Except String ApiErrorResponse)
    (status : Nat) (body : String) :
    (statusIsSuccess status = false →
      (∀ e, decodeErr body = .error e →
        resolve_response decodeT decodeErr (.ok (status, body)) =
          .error (.JSONDeserialize e)) ∧
      (∀ a, decodeErr body = .ok a →
        resolve_response decodeT decodeErr (.ok (status, body)) =
          .error (.ApiError a)) ∧
      (∀ v : T, resolve_response decodeT decodeErr (.ok (status, body)) ≠
          .ok v)) ∧
    (statusIsSuccess status = true →
      (∀ e, decodeT body = .error e →
        resolve_response decodeT decodeErr (.ok (status, body)) =
          .error (.JSONDeserialize e)) ∧
      (∀ v, decodeT body = .ok v →
        resolve_response decodeT decodeErr (.ok (status, body)) = .ok v)) := by
  constructor
  · intro hs
    refine ⟨fun e he => ?_, fun a ha => ?_, fun v hv => ?_⟩
    · simp [resolve_response, hs, he]
    · simp [resolve_response, hs, ha]
    · cases hd : decodeErr body <;> simp [resolve_response, hs, hd] at hv
  · intro hs
    refine ⟨fun e he => ?_, fun v hv => ?_⟩
    · simp [resolve_response, hs, he]
    · simp [resolve_response, hs, hv]

/-- A concrete decoded API error used by the C2 witness. -/
def errEx : ApiErrorResponse :=
  { error := { message := "rate limited", type := "requests",
               param := none, code := none } }

/-- A concrete success-type decoder used by the C2 witness. -/
def dTEx : String → Except String Nat :=
  fun b => if b = "1" then .ok 1 else .error "bad body"

/-- A concrete error-schema decoder used by the C2 witness. -/
def dEEx : String → Except String ApiErrorResponse :=
  fun b => if b = "e" then .ok errEx else .error "bad body"

/-- Witness for C2: status 200 with an undecodable body gives a JSON-decode
error, not a false success; status 404 with a decodable error body gives an
API-error result. -/
theorem resolve_response_status_branching_witness :
    resolve_response dTEx dEEx (.ok (200, "x")) =
      .error (.JSONDeserialize "bad body") ∧
    resolve_response dTEx dEEx (.ok (404, "e")) =
      .error (.ApiError errEx) := by
  obtain ⟨_, hsucc⟩ := resolve_response_status_branching dTEx dEEx 200 "x"
  obtain ⟨hfail, _⟩ := resolve_response_status_branching dTEx dEEx 404 "e"
  exact ⟨(hsucc (by decide)).1 "bad body" rfl,
         (hfail (by decide)).2.1 errEx rfl⟩

/-- C3 counterexample: the claim says the composed path for deployment
"gpt-x", version "2023-05-15" and caller route "/chat/completions" is
exactly /openai/deployments/gpt-x/chat/completions?api-version=2023-05-15,
but route_with_deployment inserts its own slash before the caller route,
which already starts with one, so the code composes a double slash instead
of that path. -/
theorem azure_route_claimed_path_wrong :
    AzureOpenAI.route_with_deployment
        (AzureOpenAI.new "k" "acme" "gpt-x" "2023-05-15") "/chat/completions" ≠
      "/openai/deployments/gpt-x/chat/completions?api-version=2023-05-15" := by
  decide

/-- C3 amended: route_with_deployment composes
/openai/deployments/deployment-id/route?api-version=version with the caller
route kept verbatim as the suffix, so for deployment "gpt-x", version
"2023-05-15" and caller route "/chat/completions" the composed path is
/openai/deployments/gpt-x//chat/completions?api-version=2023-05-15 (the
leading slash of the caller route yields a double slash); the rewrite is
applied unconditionally on every get and every post call. -/
theorem azure_route_rewrite {α : Type}
    (key resource deployment version route : String) (q : α) (b : α) :
    AzureOpenAI.route_with_deployment
        (AzureOpenAI.new key resource deployment version) route =
      "/openai/deployments/" ++ deployment ++ "/" ++ route
        ++ "?api-version=" ++ version ∧
    AzureOpenAI.route_with_deployment
        (AzureOpenAI.new "k" "acme" "gpt-x" "2023-05-15") "/chat/completions" =
      "/openai/deployments/gpt-x//chat/completions?api-version=2023-05-15" ∧
    ((AzureOpenAI.new key resource deployment version).get route q).url =
      ("https://" ++ resource ++ ".openai.azure.com") ++
        AzureOpenAI.route_with_deployment
          (AzureOpenAI.new key resource deployment version) route ∧
    ((AzureOpenAI.new key resource deployment version).post route b).url =
      ("https://" ++ resource ++ ".openai.azure.com") ++
        AzureOpenAI.route_with_deployment
          (AzureOpenAI.new key resource deployment version) route := by
  exact ⟨rfl, rfl, rfl, rfl⟩

/-- C5: for every direct backend, whenever headers() returns (it panics only
on an organization identifier that is not a valid header value, see C10),
the returned map carries the organization header exactly when an
organization identifier was supplied at construction; the base URL is the
fixed well-known address; and both get and post pass the caller route to
the transport unchanged — the request URL is the base URL concatenated with
the route. -/
theorem openai_direct_backend (key : String) (org : Option String)
    (m : List (String × String))
    (h : (OpenAI.new key org).headers = some m) :
    ((m.lookup ORGANIZATION_HEADER).isSome ↔ org.isSome) ∧
    (OpenAI.new key org).api_base = "https://api.openai.com/v1" ∧
    (∀ (α : Type) (route : String) (q : α),
      ((OpenAI.new key org).get route q).url =
        "https://api.openai.com/v1" ++ route) ∧
    (∀ (α : Type) (route : String) (b : α),
      ((OpenAI.new key org).post route b).url =
        "https://api.openai.com/v1" ++ route) := by
  refine ⟨?_, rfl, fun α route q => rfl, fun α route b => rfl⟩
  cases org with
  | none =>
    simp only [OpenAI.headers, OpenAI.new, ClientBase.headers,
      Option.some.injEq] at h
    subst h
    simp [List.lookup]
  | some o =>
    simp only [OpenAI.headers, OpenAI.new] at h
    cases hp : parseHeaderValue o with
    | none => rw [hp] at h; cases h
    | some v =>
      rw [hp] at h
      simp only [ClientBase.headers, List.nil_append, Option.some.injEq] at h
      subst h
      simp [List.lookup]

/-- Witness for C5 at a concrete key and organization identifier. -/
theorem openai_direct_backend_witness :
    (OpenAI.new "k" (some "acme")).headers =
      some [(ORGANIZATION_HEADER, "acme")] ∧
    ((([(ORGANIZATION_HEADER, "acme")] :
        List (String × String)).lookup ORGANIZATION_HEADER).isSome ↔
      (some "acme").isSome) ∧
    (OpenAI.new "k" (some "acme")).api_base = "https://api.openai.com/v1" ∧
    ((OpenAI.new "k" (some "acme")).get "/models" (0 : Nat)).url =
      "https://api.openai.com/v1" ++ "/models" := by
  have h : (OpenAI.new "k" (some "acme")).headers =
      some [(ORGANIZATION_HEADER, "acme")] := by rfl
  obtain ⟨h1, h2, h3, _⟩ :=
    openai_direct_backend "k" (some "acme") [(ORGANIZATION_HEADER, "acme")] h
  exact ⟨h, h1, h2, h3 Nat "/models" 0⟩

/-- C6: each capability-interface operation applied to the dispatch wrapper
returns exactly the result of the same operation, with the same arguments,
on the held backend variant, for both variants. -/
theorem clientEnum_forwards {α : Type} (c1 : OpenAI) (c2 : AzureOpenAI)
    (route : String) (q : α) (b : α) :
    (ClientEnum.openAI c1).headers = c1.headers ∧
    (ClientEnum.azureOpenAI c2).headers = c2.headers ∧
    (ClientEnum.openAI c1).api_key = c1.api_key ∧
    (ClientEnum.azureOpenAI c2).api_key = c2.api_key ∧
    (ClientEnum.openAI c1).api_base = c1.api_base ∧
    (ClientEnum.azureOpenAI c2).api_base = c2.api_base ∧
    (ClientEnum.openAI c1).get route q = c1.get route q ∧
    (ClientEnum.azureOpenAI c2).get route q = c2.get route q ∧
    (ClientEnum.openAI c1).post route b = c1.post route b ∧
    (ClientEnum.azureOpenAI c2).post route b = c2.post route b := by
  exact ⟨rfl, rfl, rfl, rfl, rfl, rfl, rfl, rfl, rfl, rfl⟩

/-- C10: there is an organization identifier — here one holding a newline,
a byte invalid in an HTTP header value — for which headers() on the direct
backend panics (org_id.parse().unwrap(); the panic is modelled as none)
instead of returning an error value. -/
theorem openai_headers_panics_on_invalid_org :
    parseHeaderValue "acme\nco" = none ∧
    (OpenAI.new "key" (some "acme\nco")).headers = none := ⟨rfl, rfl⟩
